import Mathlib

/-!
# The generated dolfin expression `dolfin_expression_64e9ba83b78fc26796f2117e9fbb471d`

A shallow embedding of the string-keyed accessors of the one class of
`dolfin_expression_64e9ba83b78fc26796f2117e9fbb471d.cpp`: an object with a single
`double` member `pi`, and the methods `set_property`, `get_property`,
`set_generic_function` and `get_generic_function`.

* The object is the record `Expression`; every method is a computation in the
  monad `Method`, which threads the object and keeps it when a C++ exception
  is thrown, so that the state left behind by a failing call can be observed.
* The type `α` stands for `double`.  The accessors only store, copy and return
  such values; the one literal they name, `0.0`, is the parameter `Arith.zero`.
* The method `eval` is not embedded.  Its body `values[0] = pi*pi*sin(pi*x);`
  applies `sin` to the product of the member with `x`, and `x` is declared as
  the Eigen coordinate vector: the statement has no meaning as C++ (the file
  is kept in a directory named `jitfailure-…`), and what it was meant to
  compute is IEEE double arithmetic.  Statements about what a later call
  observes are therefore made for every `Method`.
-/

namespace DolfinExpression

/-- The part of `double` that the accessor bodies name: `α` is the type standing
for `double`, and `zero` is the literal `0.0` of the last statement of
`get_property`. -/
structure Arith (α : Type) where
  zero : α

/-- The class `dolfin_expression_64e9ba83b78fc26796f2117e9fbb471d`: its only data
member is `double pi`. -/
structure Expression (α : Type) where
  pi : α
deriving DecidableEq

/-- A C++ exception in flight; `std::runtime_error(msg)` is the only one the
class throws. -/
inductive Failure where
  | runtime_error (what : String)
deriving DecidableEq

/-- A method call on an expression object: it reads and may update the object,
and either returns a value or throws.  The object survives a throw. -/
abbrev Method (α β : Type) := ExceptT Failure (StateM (Expression α)) β

/-- The method `set_property(name, _value)`:
`if (name == "pi") { pi = _value; return; } throw std::runtime_error("No such property");` -/
def set_property {α : Type} (name : String) (_value : α) : Method α Unit := do
  if name == "pi" then
    modify fun self => { self with pi := _value }
    return
  throw (Failure.runtime_error "No such property")

/-- The method `get_property(name)`:
`if (name == "pi") return pi; throw std::runtime_error("No such property"); return 0.0;` -/
def get_property {α : Type} (A : Arith α) (name : String) : Method α α := do
  if name == "pi" then
    return (← get).pi
  throwThe Failure (Failure.runtime_error "No such property")
  return A.zero

/-- The method `set_generic_function(name, _value)`: its body is the single
statement `throw std::runtime_error("No such property");`.  `γ` stands for
`std::shared_ptr<dolfin::GenericFunction>`. -/
def set_generic_function {α γ : Type} (_name : String) (_value : γ) : Method α Unit := do
  throw (Failure.runtime_error "No such property")

/-- The method `get_generic_function(name)`: its body is the single statement
`throw std::runtime_error("No such property");`. -/
def get_generic_function {α γ : Type} (_name : String) : Method α γ := do
  throw (Failure.runtime_error "No such property")

/-- Run a method on an object: the outcome of the call and the object after it. -/
def call {α β : Type} (m : Method α β) (self : Expression α) :
    Except Failure β × Expression α :=
  (ExceptT.run m).run self

/-- Rational numbers standing for `double` in concrete calls. -/
def ratArith : Arith ℚ where
  zero := 0

/-! ## What each call does -/

section Calls

variable {α γ : Type}

theorem call_set_property_pi (v : α) (s : Expression α) :
    call (set_property "pi" v) s = (.ok (), { pi := v }) := by
  rfl

theorem call_set_property_other (name : String) (h : name ≠ "pi") (v : α)
    (s : Expression α) :
    call (set_property name v) s = (.error (.runtime_error "No such property"), s) := by
  have hb : (name == "pi") = false := by simpa using h
  simp only [call, set_property, hb]
  rfl

theorem call_get_property_pi (A : Arith α) (s : Expression α) :
    call (get_property A "pi") s = (.ok s.pi, s) := by
  rfl

theorem call_get_property_other (A : Arith α) (name : String) (h : name ≠ "pi")
    (s : Expression α) :
    call (get_property A name) s = (.error (.runtime_error "No such property"), s) := by
  have hb : (name == "pi") = false := by simpa using h
  simp only [call, get_property, hb]
  rfl

theorem call_set_generic_function (name : String) (f : γ) (s : Expression α) :
    call (set_generic_function name f) s =
      (.error (.runtime_error "No such property"), s) := by
  rfl

theorem call_get_generic_function (name : String) (s : Expression α) :
    call (get_generic_function name : Method α γ) s =
      (.error (.runtime_error "No such property"), s) := by
  rfl

/-- Sequencing: when the first call returns, the second runs on the object
the first one left. -/
theorem call_bind_ok {β δ : Type} (m : Method α β) (k : β → Method α δ)
    (s s1 : Expression α) (b : β) (h : call m s = (.ok b, s1)) :
    call (m >>= k) s = call (k b) s1 := by
  simp only [call] at h ⊢
  simp [ExceptT.run_bind, StateT.run_bind, h]

/-- Sequencing: when the first call throws, the rest is skipped and the
exception propagates with the object the first call left. -/
theorem call_bind_error {β δ : Type} (m : Method α β) (k : β → Method α δ)
    (s s1 : Expression α) (e : Failure) (h : call m s = (.error e, s1)) :
    call (m >>= k) s = (.error e, s1) := by
  simp only [call] at h ⊢
  simp [ExceptT.run_bind, StateT.run_bind, h]

end Calls

/-! ## The specification, claim by claim -/

section Claims

variable {α γ : Type}

/-- C2. For every name other than `"pi"` (exact string comparison) and every
value, `set_property` throws `std::runtime_error("No such property")`; it never
returns normally. -/
theorem set_property_unknown_name (name : String) (hname : name ≠ "pi") (v : α)
    (s : Expression α) :
    (call (set_property name v) s).1 = .error (.runtime_error "No such property") ∧
    (call (set_property name v) s).1 ≠ .ok () := by
  rw [call_set_property_other name hname]
  exact ⟨rfl, fun h => by cases h⟩

/-- C2 at a concrete call: the comparison is case-sensitive, `"Pi"` is refused. -/
theorem set_property_unknown_name_witness :
    ("Pi" ≠ "pi") ∧
    (call (set_property "Pi" (3 : ℚ)) { pi := 1 }).1
        = .error (.runtime_error "No such property") ∧
    (call (set_property "Pi" (3 : ℚ)) { pi := 1 }).1 ≠ .ok () :=
  ⟨by decide, set_property_unknown_name "Pi" (by decide) 3 { pi := 1 }⟩

/-- C3. The method `get_property` returns a value exactly when the name is `"pi"`:
for any other name it throws `std::runtime_error("No such property")` (so the
trailing `return 0.0` is never reached), and for `"pi"` it returns the current
value of the member and leaves the object as it is. -/
theorem get_property_returns_iff_pi (A : Arith α) (name : String) (s : Expression α) :
    ((∃ v, (call (get_property A name) s).1 = .ok v) ↔ name = "pi") ∧
    (name ≠ "pi" →
      (call (get_property A name) s).1 = .error (.runtime_error "No such property")) ∧
    call (get_property A "pi") s = (.ok s.pi, s) := by
  refine ⟨⟨?_, ?_⟩, ?_, call_get_property_pi A s⟩
  · rintro ⟨v, hv⟩
    by_contra hne
    rw [call_get_property_other A name hne] at hv
    cases hv
  · rintro rfl
    exact ⟨s.pi, by rw [call_get_property_pi]⟩
  · intro hne
    rw [call_get_property_other A name hne]

/-- C3 at concrete calls: `"pi"` returns the stored `5`, `"PI"` throws although
the dead `return 0.0` would have produced `0`. -/
theorem get_property_returns_iff_pi_witness :
    (call (get_property ratArith "pi") { pi := 5 }).1 = .ok 5 ∧
    (call (get_property ratArith "PI") { pi := 5 }).1
        = .error (.runtime_error "No such property") :=
  ⟨by rw [(get_property_returns_iff_pi ratArith "pi" { pi := 5 }).2.2],
    (get_property_returns_iff_pi ratArith "PI" { pi := 5 }).2.1 (by decide)⟩

/-- C4. For a name that is not a property, all four accessors throw a
`std::runtime_error` carrying the same message `"No such property"`. -/
theorem unknown_name_one_message (A : Arith α) (name : String) (hname : name ≠ "pi")
    (f : γ) (v : α) (s : Expression α) :
    (call (set_generic_function name f) s).1
        = .error (.runtime_error "No such property") ∧
    (call (get_generic_function name : Method α γ) s).1
        = .error (.runtime_error "No such property") ∧
    (call (set_property name v) s).1 = .error (.runtime_error "No such property") ∧
    (call (get_property A name) s).1 = .error (.runtime_error "No such property") := by
  rw [call_set_generic_function, call_get_generic_function,
    call_set_property_other name hname, call_get_property_other A name hname]
  exact ⟨rfl, rfl, rfl, rfl⟩

/-- C4 at a concrete call: the name `"e"`, with a natural number standing for the
generic function. -/
theorem unknown_name_one_message_witness :
    ("e" ≠ "pi") ∧
    (call (set_generic_function "e" (0 : ℕ)) ({ pi := 1 } : Expression ℚ)).1
        = .error (.runtime_error "No such property") ∧
    (call (get_generic_function "e" : Method ℚ ℕ) { pi := 1 }).1
        = .error (.runtime_error "No such property") ∧
    (call (set_property "e" (2 : ℚ)) { pi := 1 }).1
        = .error (.runtime_error "No such property") ∧
    (call (get_property ratArith "e") { pi := 1 }).1
        = .error (.runtime_error "No such property") :=
  ⟨by decide, unknown_name_one_message ratArith "e" (by decide) 0 2 { pi := 1 }⟩

/-- C5. Round trip of the property: from any object, `set_property("pi", v)`
returns normally and a following `get_property("pi")` returns `v`; a second
`set_property("pi", w)` overwrites, so that `get_property("pi")` then returns `w`. -/
theorem set_get_property_roundtrip (A : Arith α) (s : Expression α) (v w : α) :
    (call (set_property "pi" v) s).1 = .ok () ∧
    call (do set_property "pi" v; get_property A "pi") s = (.ok v, { pi := v }) ∧
    (call (do set_property "pi" v; set_property "pi" w) s).1 = .ok () ∧
    call (do set_property "pi" v; set_property "pi" w; get_property A "pi") s
      = (.ok w, { pi := w }) := by
  refine ⟨by rw [call_set_property_pi], ?_, ?_, ?_⟩
  · rw [call_bind_ok _ _ s _ () (call_set_property_pi v s), call_get_property_pi]
  · rw [call_bind_ok _ _ s _ () (call_set_property_pi v s), call_set_property_pi]
  · rw [call_bind_ok _ _ s _ () (call_set_property_pi v s),
      call_bind_ok _ _ _ _ () (call_set_property_pi w _), call_get_property_pi]

/-- C8. A failing `set_property` is atomic: for a name other than `"pi"` the call
throws and the object is exactly as before, so `get_property("pi")` and every
other later method call, whatever it computes, behave as they did before the
failed call. -/
theorem set_property_failure_atomic (A : Arith α) (s : Expression α) (name : String)
    (hname : name ≠ "pi") (v : α) :
    (call (set_property name v) s).1 = .error (.runtime_error "No such property") ∧
    (call (set_property name v) s).2 = s ∧
    call (get_property A "pi") (call (set_property name v) s).2
      = call (get_property A "pi") s ∧
    ∀ (β : Type) (m : Method α β),
      call m (call (set_property name v) s).2 = call m s := by
  rw [call_set_property_other name hname]
  exact ⟨rfl, rfl, rfl, fun _ _ => rfl⟩

/-- C8 at a concrete call: `set_property("pie", 3)` on an object holding `2`. -/
theorem set_property_failure_atomic_witness :
    ("pie" ≠ "pi") ∧
    (call (set_property "pie" (3 : ℚ)) { pi := 2 }).1
      = .error (.runtime_error "No such property") ∧
    (call (set_property "pie" (3 : ℚ)) { pi := 2 }).2 = { pi := 2 } ∧
    call (get_property ratArith "pi") (call (set_property "pie" (3 : ℚ)) { pi := 2 }).2
      = (.ok 2, { pi := 2 }) :=
  have h := set_property_failure_atomic ratArith { pi := 2 } "pie" (by decide) 3
  ⟨by decide, h.1, h.2.1, by rw [h.2.2.1]; rfl⟩

/-- C9. The expression has no generic-function property: `set_generic_function`
and `get_generic_function` throw `std::runtime_error("No such property")` for
every name, the name `"pi"` included although `set_property` and `get_property`
accept it, and they leave the object, hence the numeric property, as it is. -/
theorem generic_function_always_throws (A : Arith α) (name : String) (f : γ)
    (v : α) (s : Expression α) :
    call (set_generic_function name f) s
      = (.error (.runtime_error "No such property"), s) ∧
    call (get_generic_function name : Method α γ) s
      = (.error (.runtime_error "No such property"), s) ∧
    call (set_generic_function "pi" f) s
      = (.error (.runtime_error "No such property"), s) ∧
    call (get_generic_function "pi" : Method α γ) s
      = (.error (.runtime_error "No such property"), s) ∧
    (call (set_property "pi" v) s).1 = .ok () ∧
    (call (get_property A "pi") s).1 = .ok s.pi ∧
    call (get_property A "pi") (call (set_generic_function name f) s).2
      = call (get_property A "pi") s := by
  rw [call_set_generic_function, call_set_generic_function, call_get_generic_function,
    call_get_generic_function, call_set_property_pi, call_get_property_pi]
  exact ⟨rfl, rfl, rfl, rfl, rfl, rfl, rfl⟩

end Claims

end DolfinExpression
